import Mathlib

/-!
Verification of the span-export pipeline of the `test-llm-otel-logging`
repository: a shallow embedding in Lean 4 of the telemetry-export logic in
`src/otel_llm_log.py` and `src/langgraph/otel_export.py`, together with
theorems settling the specification's claims about endpoint/header
resolution, payload compression, the no-SSL delivery client (its retry and
HTTP-error handling), the result-tracking exporter wrapper, and the host
process's exit contract.
-/

namespace OtelExport

/-! ## Python string primitives

The Python code uses `str.strip()`, `str.rstrip("/")`, `str.endswith`,
slicing `s[:n]` and concatenation.  We embed them on `String` via its
underlying `List Char`, which keeps every definition kernel-executable. -/

/-- Python `s.strip()`: remove leading and trailing whitespace. -/
def pyStrip (s : String) : String :=
  String.mk (((s.data.dropWhile Char.isWhitespace).reverse.dropWhile
    Char.isWhitespace).reverse)

/-- Python `s.rstrip("/")`: remove trailing `'/'` characters. -/
def pyRstripSlash (s : String) : String :=
  String.mk ((s.data.reverse.dropWhile (fun c => c = '/')).reverse)

/-- Python `s.endswith(suffix)`. -/
def pyEndsWith (s suffix : String) : Bool :=
  suffix.data.isSuffixOf s.data

/-- Python slice-then-concat `s[:n] + t`. -/
def pySliceConcat (s : String) (n : Nat) (t : String) : String :=
  String.mk (s.data.take n ++ t.data)

/-! ## Environment model

`os.environ` as seen by the exporter-configuration functions: each variable
is `Option String` (`none` = unset), and `os.environ.get(name, d)` is
`(·.getD d)`. -/

/-- The four OTLP environment variables read by the configuration layer. -/
structure OtlpEnv where
  traces_endpoint : Option String   -- OTEL_EXPORTER_OTLP_TRACES_ENDPOINT
  endpoint : Option String          -- OTEL_EXPORTER_OTLP_ENDPOINT
  traces_headers : Option String    -- OTEL_EXPORTER_OTLP_TRACES_HEADERS
  headers : Option String           -- OTEL_EXPORTER_OTLP_HEADERS

/-- `DEFAULT_TRACES_ENDPOINT` from both source modules. -/
def DEFAULT_TRACES_ENDPOINT : String := "http://localhost:4318/v1/traces"

/-- Embedding of `get_otlp_endpoint` (`src/langgraph/otel_export.py`, lines
18-25) = `_get_endpoint` (`src/otel_llm_log.py`, lines 49-56):

```
endpoint = os.environ.get("OTEL_EXPORTER_OTLP_TRACES_ENDPOINT", "").strip()
if endpoint: return endpoint
base = os.environ.get("OTEL_EXPORTER_OTLP_ENDPOINT", "").strip().rstrip("/")
if not base: return DEFAULT_TRACES_ENDPOINT
return base if base.endswith("v1/traces") else f"{base}/v1/traces"
``` -/
def get_otlp_endpoint (env : OtlpEnv) : String :=
  let endpoint := pyStrip (env.traces_endpoint.getD "")
  if endpoint ≠ "" then
    endpoint
  else
    let base := pyRstripSlash (pyStrip (env.endpoint.getD ""))
    if base = "" then
      DEFAULT_TRACES_ENDPOINT
    else if pyEndsWith base "v1/traces" then
      base
    else
      base ++ "/v1/traces"

/-- The endpoint-resolution order as the amended claim words it: a non-empty
(whitespace-trimmed) explicit traces endpoint is used; otherwise the generic
endpoint, trimmed and with trailing slashes removed, gets `/v1/traces`
appended unless it already ends with `v1/traces`; otherwise the local
default. -/
def specResolveEndpoint (env : OtlpEnv) : String :=
  let explicit := pyStrip (env.traces_endpoint.getD "")
  let base := pyRstripSlash (pyStrip (env.endpoint.getD ""))
  if explicit ≠ "" then explicit
  else if base = "" then DEFAULT_TRACES_ENDPOINT
  else if pyEndsWith base "v1/traces" then base
  else base ++ "/v1/traces"

/-- Embedding of `get_otlp_headers` (`src/langgraph/otel_export.py`, lines
28-34) = `_get_headers` (`src/otel_llm_log.py`, lines 59-67).  The header
string is `os.environ.get(TRACES_HEADERS, os.environ.get(HEADERS, ""))`;
the parser (`parse_env_headers`, an external library function) is a
parameter. -/
def headersString (env : OtlpEnv) : String :=
  match env.traces_headers with
  | some s => s
  | none => env.headers.getD ""

/-- `return parse_env_headers(s, liberal=True) if s else {}`. -/
def get_otlp_headers (parse : String → List (String × String)) (env : OtlpEnv) :
    List (String × String) :=
  let s := headersString env
  if s ≠ "" then parse s else []

/-! ## Delivery client: `OTLPSpanExporterNoSSL._export`

Both source files define a subclass of `OTLPSpanExporter` overriding
`_export`.  We embed its three concerns separately: the compression dispatch
(identical in both files), the arguments passed to `session.post` (identical
in both files), and the exception control flow, which DIFFERS: the root
`src/otel_llm_log.py` retries the post once on `ConnectionError`, while
`src/langgraph/otel_export.py` logs and re-raises every exception with no
retry. -/

/-- The exporter's `Compression` enum (`none` / `gzip` / `deflate`). -/
inductive Compression where
  | noCompression
  | gzipC
  | deflateC
deriving DecidableEq, Repr

/-- Compression dispatch of `_export` (`src/otel_llm_log.py`, lines 83-90 and
`src/langgraph/otel_export.py`, lines 43-50):

```
data = serialized_data
if self._compression == Compression.Gzip: data = <gzip(serialized_data)>
elif self._compression == Compression.Deflate: data = zlib.compress(serialized_data)
```

`gzipCompress` and `zlibCompress` stand for the Python standard-library
compressors, which are external to the repository; the dispatch itself is
the repository's code. -/
def exportPayload (gzipCompress zlibCompress : List Nat → List Nat)
    (compression : Compression) (serialized_data : List Nat) : List Nat :=
  if compression = Compression.gzipC then
    gzipCompress serialized_data
  else if compression = Compression.deflateC then
    zlibCompress serialized_data
  else
    serialized_data

/-- Constructor surface of the no-SSL exporter:
`OTLPSpanExporterNoSSL(endpoint=endpoint, headers=headers or None)`
(`src/otel_llm_log.py`, line 113; `src/langgraph/otel_export.py`, line 105).
The constructor takes only an endpoint and headers — it has no
transport-security field, flag, or mode of any kind. -/
structure NoSSLExporterConfig where
  endpoint : String
  headers : Option (List (String × String))

/-- The keyword arguments of each `self._session.post(...)` call in
`_export` (`src/otel_llm_log.py`, lines 96-102 and 104-110;
`src/langgraph/otel_export.py`, lines 54-60). -/
structure PostArgs where
  url : String
  data : List Nat
  verify : Bool
  timeout_sec : Nat
  cert : Option String

/-- The post call built by `_export`: every occurrence in both files is
`self._session.post(url=self._endpoint, data=data, verify=False,
timeout=timeout_sec, cert=self._client_cert)`. -/
def buildPostArgs (cfg : NoSSLExporterConfig) (client_cert : Option String)
    (data : List Nat) (timeout_sec : Nat) : PostArgs :=
  { url := cfg.endpoint
    data := data
    verify := false
    timeout_sec := timeout_sec
    cert := client_cert }

/-- Classification of an exception raised by `session.post`, following the
`except` clauses of `src/langgraph/otel_export.py` (`Timeout`,
`ConnectionError`, `RequestException`, bare `Exception`). -/
inductive PostError where
  | connectionError
  | timeout
  | requestError
  | unexpected
deriving DecidableEq, Repr

/-- One network round-trip: either an HTTP response or a raised exception. -/
abbrev PostResult (R : Type) := Except PostError R

/-- Exception control flow of the ROOT `_export`
(`src/otel_llm_log.py`, lines 95-111):

```
try:
    resp = self._session.post(...)
except ConnectionError:
    resp = self._session.post(...)
return resp
```

`net i` is the outcome of the `i`-th `session.post` call of this `_export`
invocation.  The second component counts the post calls performed. -/
def exportRoot {R : Type} (net : Nat → PostResult R) :
    PostResult R × Nat :=
  match net 0 with
  | .ok resp => (.ok resp, 1)
  | .error e =>
    if e = PostError.connectionError then
      (net 1, 2)
    else
      (.error e, 1)

/-- Exception control flow of the LANGGRAPH `_export`
(`src/langgraph/otel_export.py`, lines 53-103): one `session.post`; every
`except` clause (`Timeout`, `ConnectionError`, `RequestException`,
`Exception`) logs and re-`raise`s, so any exception propagates after a
single attempt and a success returns the response. -/
def exportLanggraph {R : Type} (net : Nat → PostResult R) :
    PostResult R × Nat :=
  match net 0 with
  | .ok resp => (.ok resp, 1)
  | .error e => (.error e, 1)

/-! ## HTTP-error handling of the langgraph `_export` -/

/-- The fields of a `requests.Response` that `_export` reads.  `ok` is the
`requests` library's property `status_code < 400`. -/
structure HttpResponse where
  status_code : Nat
  reason : String
  text : String
deriving DecidableEq, Repr

/-- `resp.ok` of the `requests` library: true iff the status is below 400. -/
def HttpResponse.ok (resp : HttpResponse) : Bool :=
  resp.status_code < 400

/-- `body_preview` (`src/langgraph/otel_export.py`, line 62):

```
body_preview = (resp.text[:1000] + "...") if resp.text and len(resp.text) > 1000
               else (resp.text or "(empty)")
``` -/
def bodyPreview (text : String) : String :=
  if text ≠ "" ∧ text.length > 1000 then
    pySliceConcat text 1000 "..."
  else if text = "" then
    "(empty)"
  else
    text

/-- One record of `logger.error("OTLP trace export HTTP error: ...")`
(`src/langgraph/otel_export.py`, lines 63-70), with its five format
arguments. -/
structure HttpErrorLog where
  status : Nat
  reason : String
  url : String
  request_content_length : Nat
  response_body : String
deriving DecidableEq, Repr

/-- Response handling of the langgraph `_export`
(`src/langgraph/otel_export.py`, lines 61-71):

```
if not resp.ok:
    body_preview = ...
    logger.error(..., resp.status_code, getattr(resp, "reason", ""),
                 self._endpoint, len(data), body_preview)
return resp
```

The first component is the emitted log record (if any); the second is what
the function returns — always the response itself, never a raise. -/
def handleResponse (endpoint : String) (dataLen : Nat) (resp : HttpResponse) :
    Option HttpErrorLog × HttpResponse :=
  if resp.ok then
    (none, resp)
  else
    (some { status := resp.status_code
            reason := resp.reason
            url := endpoint
            request_content_length := dataLen
            response_body := bodyPreview resp.text }, resp)

/-! ## Result-tracking wrapper

`TrackingSpanExporter` (`src/otel_llm_log.py`, lines 116-138) and
`LoggingSpanExporter` (`src/langgraph/otel_export.py`, lines 113-141) wrap
an inner exporter, keeping `last_result` / `last_error` mutable state.  We
embed the state explicitly; the inner exporter is a record of (pure)
functions, with its `export` returning `Except E SpanExportResult` to model
a normal return versus a raised exception `e : E`. -/

/-- The OpenTelemetry SDK's `SpanExportResult` enum. -/
inductive SpanExportResult where
  | success
  | failure
deriving DecidableEq, Repr

/-- The mutable fields of the tracking wrapper (`last_result`,
`last_error`), both initialised to `None` in `__init__`. -/
structure TrackingState (E : Type) where
  last_result : Option SpanExportResult
  last_error : Option E
deriving DecidableEq, Repr

/-- `TrackingSpanExporter.__init__` / `LoggingSpanExporter.__init__`:
`self.last_result = None; self.last_error = None`. -/
def TrackingState.init (E : Type) : TrackingState E :=
  { last_result := none, last_error := none }

/-- An inner span exporter (the delegate), as the record of the three
methods the wrapper forwards to.  `Span` is the type of a `ReadableSpan`,
`E` the type of exceptions its export may raise. -/
structure InnerExporter (Span E : Type) where
  exportFn : List Span → Except E SpanExportResult
  shutdownFn : Unit
  forceFlushFn : Nat → Bool

/-- `TrackingSpanExporter.export` (`src/otel_llm_log.py`, lines 124-132):

```
self.last_error = None
try:
    self.last_result = self._delegate.export(spans)
    return self.last_result
except Exception as e:
    self.last_error = e
    self.last_result = SpanExportResult.FAILURE
    raise
```

(`LoggingSpanExporter.export`, `src/langgraph/otel_export.py` lines
119-133, is the same state flow plus a warning log on a non-success
result.)  Returns the post-state and what the call returns/raises. -/
def trackingExport {S E : Type} (delegate : InnerExporter S E)
    (spans : List S) (st : TrackingState E) :
    TrackingState E × Except E SpanExportResult :=
  let st1 : TrackingState E := { st with last_error := none }
  match delegate.exportFn spans with
  | .ok r =>
    let st2 : TrackingState E := { st1 with last_result := some r }
    (st2, .ok r)
  | .error e =>
    let st2 : TrackingState E := { st1 with last_error := some e }
    let st3 : TrackingState E := { st2 with last_result := some SpanExportResult.failure }
    (st3, .error e)

/-- `TrackingSpanExporter.shutdown`: `self._delegate.shutdown()`. -/
def trackingShutdown {S E : Type} (delegate : InnerExporter S E) : Unit :=
  delegate.shutdownFn

/-- `TrackingSpanExporter.force_flush`:
`return self._delegate.force_flush(timeout_millis)`. -/
def trackingForceFlush {S E : Type} (delegate : InnerExporter S E)
    (timeout_millis : Nat) : Bool :=
  delegate.forceFlushFn timeout_millis

/-! ## Host process exit contract

The tails of `main` in `src/otel_llm_log.py` (lines 252-265) and
`src/langgraph/agent_otel.py` (lines 78-86), after the forced flush /
shutdown, inspect the wrapper's recorded state, print a summary and decide
the exit status.  We model the printed lines and the exit code; `showE`
renders an exception as Python's f-string interpolation does. -/

/-- Outcome of the host process tail: its exit status and printed lines. -/
structure HostExit where
  exitCode : Nat
  printed : List String
deriving DecidableEq, Repr

/-- Tail of `main` in `src/otel_llm_log.py` (lines 252-265):

```
provider.shutdown()
if tracking.last_result == SpanExportResult.SUCCESS:
    print(f"GenAI spans exported (chat + execute_tool) to {endpoint}. Service: otel-llm-log.")
else:
    print("Export failed (SSL or network error). Check logs above. " f"Endpoint: {endpoint}")
    if tracking.last_error:
        print(f"Error: {tracking.last_error}")
    sys.exit(1)
``` -/
def mainExitRoot {E : Type} (showE : E → String) (endpoint : String)
    (tracking : TrackingState E) : HostExit :=
  if tracking.last_result = some SpanExportResult.success then
    { exitCode := 0
      printed := ["GenAI spans exported (chat + execute_tool) to " ++ endpoint ++
        ". Service: otel-llm-log."] }
  else
    let msgs := ["Export failed (SSL or network error). Check logs above. Endpoint: "
      ++ endpoint]
    let msgs := match tracking.last_error with
      | some e => msgs ++ ["Error: " ++ showE e]
      | none => msgs
    { exitCode := 1, printed := msgs }

/-- Tail of `main` in `src/langgraph/agent_otel.py` (lines 78-86):

```
provider.force_flush(3000)
provider.shutdown()
if getattr(exporter, "last_result", None) == SpanExportResult.SUCCESS:
    print(f"LangChain/LangGraph spans exported to {endpoint}. Service: langgraph-agent-otel.")
else:
    print(f"Export may have failed. Endpoint: {endpoint}. Check logs above for OTLP errors.")
    if getattr(exporter, "last_error", None) is not None:
        print(f"Last export error: {exporter.last_error}")
    sys.exit(1)
``` -/
def mainExitLanggraph {E : Type} (showE : E → String) (endpoint : String)
    (tracking : TrackingState E) : HostExit :=
  if tracking.last_result = some SpanExportResult.success then
    { exitCode := 0
      printed := ["LangChain/LangGraph spans exported to " ++ endpoint ++
        ". Service: langgraph-agent-otel."] }
  else
    let msgs := ["Export may have failed. Endpoint: " ++ endpoint ++
      ". Check logs above for OTLP errors."]
    let msgs := match tracking.last_error with
      | some e => msgs ++ ["Last export error: " ++ showE e]
      | none => msgs
    { exitCode := 1, printed := msgs }

/-! ## Theorems settling the claims -/

/-- A string's length is the length of its character list. -/
theorem string_length_data (s : String) : s.length = s.data.length := rfl

/-- C1, counterexample: the langgraph delivery client
(`src/langgraph/otel_export.py`) does NOT retry on a connection error — with
every post attempt failing with a connection error it performs exactly 1
network round-trip, not the 2 the claim requires for a send whose initial
attempt fails with a connection error. -/
theorem claim_C1_counterexample :
    (exportLanggraph (R := Unit)
      (fun _ => Except.error PostError.connectionError)).2 = 1 ∧
    (1 : Nat) ≠ 2 := by
  exact ⟨rfl, by decide⟩

/-- C1, amended: the single inline retry on connection error holds for the
ROOT exporter (`src/otel_llm_log.py`): an initial connection error causes
exactly one immediate retry (2 round-trips) whose result — including a
second connection error — propagates to the caller; no other outcome of the
first attempt triggers a retry, and every send performs at most 2
round-trips.  The langgraph exporter (`src/langgraph/otel_export.py`)
never retries: every send performs exactly 1 round-trip. -/
theorem claim_C1_retry (R : Type) (net : Nat → PostResult R) :
    (net 0 = Except.error PostError.connectionError →
      (exportRoot net).2 = 2 ∧ (exportRoot net).1 = net 1) ∧
    (net 0 = Except.error PostError.connectionError →
      net 1 = Except.error PostError.connectionError →
      (exportRoot net).1 = Except.error PostError.connectionError) ∧
    (∀ e, net 0 = Except.error e → e ≠ PostError.connectionError →
      exportRoot net = (Except.error e, 1)) ∧
    (∀ r, net 0 = Except.ok r → exportRoot net = (Except.ok r, 1)) ∧
    (exportRoot net).2 ≤ 2 ∧
    (exportLanggraph net).2 = 1 := by
  refine ⟨?_, ?_, ?_, ?_, ?_, ?_⟩
  · intro h; simp [exportRoot, h]
  · intro h0 h1; simp [exportRoot, h0, h1]
  · intro e h he; simp [exportRoot, h, he]
  · intro r h; simp [exportRoot, h]
  · cases h : net 0 with
    | ok r => simp [exportRoot, h]
    | error e =>
      by_cases he : e = PostError.connectionError <;> simp [exportRoot, h, he]
  · cases h : net 0 with
    | ok r => simp [exportLanggraph, h]
    | error e => simp [exportLanggraph, h]

/-- C1, witness: with every post attempt refusing the connection, the root
exporter performs exactly 2 round-trips and the connection error on the
retry propagates. -/
theorem claim_C1_witness :
    (exportRoot (R := Unit)
      (fun _ => Except.error PostError.connectionError)).2 = 2 ∧
    (exportRoot (R := Unit)
      (fun _ => Except.error PostError.connectionError)).1
      = Except.error PostError.connectionError := by
  refine ⟨((claim_C1_retry Unit
      (fun _ => Except.error PostError.connectionError)).1 rfl).1,
    (claim_C1_retry Unit
      (fun _ => Except.error PostError.connectionError)).2.1 rfl rfl⟩

/-- C2: the host-process tails of both `main` functions exit 0 exactly when
the tracking wrapper's recorded last result is success, exit 1 otherwise,
and on failure print the last captured error when one was recorded. -/
theorem claim_C2_exit_contract {E : Type} (showE : E → String)
    (endpoint : String) (st : TrackingState E) :
    ((mainExitRoot showE endpoint st).exitCode = 0 ↔
      st.last_result = some SpanExportResult.success) ∧
    ((mainExitLanggraph showE endpoint st).exitCode = 0 ↔
      st.last_result = some SpanExportResult.success) ∧
    (¬ st.last_result = some SpanExportResult.success →
      (mainExitRoot showE endpoint st).exitCode = 1 ∧
      (mainExitLanggraph showE endpoint st).exitCode = 1) ∧
    (∀ e, st.last_error = some e →
      ¬ st.last_result = some SpanExportResult.success →
      ("Error: " ++ showE e) ∈ (mainExitRoot showE endpoint st).printed ∧
      ("Last export error: " ++ showE e) ∈
        (mainExitLanggraph showE endpoint st).printed) := by
  refine ⟨?_, ?_, ?_, ?_⟩
  · by_cases h : st.last_result = some SpanExportResult.success <;>
      simp [mainExitRoot, h]
  · by_cases h : st.last_result = some SpanExportResult.success <;>
      simp [mainExitLanggraph, h]
  · intro h; exact ⟨by simp [mainExitRoot, h], by simp [mainExitLanggraph, h]⟩
  · intro e he h
    exact ⟨by simp [mainExitRoot, h, he], by simp [mainExitLanggraph, h, he]⟩

/-- C2, witness: a recorded failure with a captured error makes the root
host tail exit 1 and print the error line. -/
theorem claim_C2_witness :
    (mainExitRoot id "http://c"
      ⟨some SpanExportResult.failure, some "boom"⟩).exitCode = 1 ∧
    ("Error: " ++ id "boom") ∈ (mainExitRoot id "http://c"
      ⟨some SpanExportResult.failure, some "boom"⟩).printed := by
  have h := claim_C2_exit_contract (E := String) id "http://c"
    ⟨some SpanExportResult.failure, some "boom"⟩
  exact ⟨(h.2.2.1 (by decide)).1, (h.2.2.2 "boom" rfl (by decide)).1⟩

/-- C3, counterexample: for a 503 response whose body has 1001 characters,
the logged body preview has 1003 characters (`text[:1000] + "..."`), so it
is not "truncated to at most 1000 characters" as the claim states. -/
theorem claim_C3_counterexample :
    ((handleResponse "http://collector:4318/v1/traces" 42
        ⟨503, "Service Unavailable", String.mk (List.replicate 1001 'a')⟩).1.map
      (fun l => l.response_body.length)) = some 1003 ∧ ¬ (1003 ≤ 1000) := by
  set_option maxRecDepth 8000 in decide

/-- C3, amended: for every non-success HTTP response, the langgraph
exporter's `_export` logs endpoint, status, reason, request payload size and
a body preview — the full body when it has at most 1000 characters (or the
placeholder `(empty)` when empty), and the first 1000 characters followed by
`...` (1003 characters in total) when longer — and then returns the response
carrying the status rather than raising. -/
theorem claim_C3_http_error (endpoint : String) (dataLen : Nat)
    (resp : HttpResponse) (hok : resp.ok = false) :
    (handleResponse endpoint dataLen resp).1 = some
      { status := resp.status_code
        reason := resp.reason
        url := endpoint
        request_content_length := dataLen
        response_body := bodyPreview resp.text } ∧
    (handleResponse endpoint dataLen resp).2 = resp ∧
    (resp.text.length > 1000 →
      (bodyPreview resp.text).data = resp.text.data.take 1000 ++ ['.', '.', '.'] ∧
      (bodyPreview resp.text).length = 1003) ∧
    (resp.text ≠ "" → resp.text.length ≤ 1000 → bodyPreview resp.text = resp.text) ∧
    (resp.text = "" → bodyPreview resp.text = "(empty)") := by
  refine ⟨by simp [handleResponse, hok], by simp [handleResponse, hok], ?_, ?_, ?_⟩
  · intro hlen
    have hne : resp.text ≠ "" := by
      intro h
      rw [h] at hlen
      exact absurd hlen (by decide)
    have hcond : resp.text ≠ "" ∧ resp.text.length > 1000 := ⟨hne, hlen⟩
    have hbp : bodyPreview resp.text = pySliceConcat resp.text 1000 "..." := by
      unfold bodyPreview
      rw [if_pos hcond]
    have hdata : 1000 < resp.text.data.length := by
      rw [string_length_data] at hlen
      exact hlen
    have hproj : (pySliceConcat resp.text 1000 "...").data
        = resp.text.data.take 1000 ++ "...".data := rfl
    have h3 : ("...".data).length = 3 := rfl
    constructor
    · rw [hbp]
      rfl
    · rw [hbp, string_length_data, hproj, List.length_append, List.length_take, h3]
      omega
  · intro hne hle
    have hcond : ¬ (resp.text ≠ "" ∧ resp.text.length > 1000) := by
      rintro ⟨-, h⟩
      omega
    unfold bodyPreview
    rw [if_neg hcond, if_neg hne]
  · intro he
    have h1 : ¬ (("" : String) ≠ "" ∧ ("" : String).length > 1000) := by decide
    rw [he]
    unfold bodyPreview
    rw [if_neg h1, if_pos rfl]

/-- C3, witness: a concrete 503 response with a short body is logged with
its full body as the preview and returned as-is. -/
theorem claim_C3_witness :
    (handleResponse "http://c" 5 ⟨503, "SU", "oops"⟩).1 =
      some ⟨503, "SU", "http://c", 5, bodyPreview "oops"⟩ ∧
    bodyPreview "oops" = "oops" ∧
    (handleResponse "http://c" 5 ⟨503, "SU", "oops"⟩).2 = ⟨503, "SU", "oops"⟩ := by
  refine ⟨(claim_C3_http_error "http://c" 5 ⟨503, "SU", "oops"⟩ (by decide)).1,
    (claim_C3_http_error "http://c" 5 ⟨503, "SU", "oops"⟩ (by decide)).2.2.2.1
      (by decide) (by decide),
    (claim_C3_http_error "http://c" 5 ⟨503, "SU", "oops"⟩ (by decide)).2.1⟩

/-- C4: when the inner exporter's export raises, the tracking wrapper
records the exception as `last_error` and re-raises the SAME exception to
its caller — it never swallows it. -/
theorem claim_C4_record_then_rethrow {S E : Type}
    (delegate : InnerExporter S E) (spans : List S)
    (st : TrackingState E) (e : E)
    (h : delegate.exportFn spans = Except.error e) :
    (trackingExport delegate spans st).2 = Except.error e ∧
    (trackingExport delegate spans st).1.last_error = some e := by
  simp [trackingExport, h]

/-- C4, witness: a delegate raising `"boom"` leaves `last_error = "boom"`
and the call re-raises `"boom"`. -/
theorem claim_C4_witness :
    (trackingExport (S := Unit) (E := String)
      ⟨fun _ => Except.error "boom", (), fun _ => true⟩ []
      (TrackingState.init String)).2 = Except.error "boom" ∧
    (trackingExport (S := Unit) (E := String)
      ⟨fun _ => Except.error "boom", (), fun _ => true⟩ []
      (TrackingState.init String)).1.last_error = some "boom" :=
  claim_C4_record_then_rethrow
    ⟨fun _ => Except.error "boom", (), fun _ => true⟩ []
    (TrackingState.init String) "boom" rfl

/-- C5: the tracking wrapper is transparent — when the inner export returns
normally the wrapper's export returns exactly that value, and `shutdown` /
`force_flush` forward to the inner exporter and return its results
unchanged. -/
theorem claim_C5_transparent {S E : Type} (delegate : InnerExporter S E)
    (spans : List S) (st : TrackingState E) (r : SpanExportResult)
    (h : delegate.exportFn spans = Except.ok r) :
    (trackingExport delegate spans st).2 = Except.ok r ∧
    trackingShutdown delegate = delegate.shutdownFn ∧
    (∀ t, trackingForceFlush delegate t = delegate.forceFlushFn t) := by
  exact ⟨by simp [trackingExport, h], rfl, fun t => rfl⟩

/-- C5, witness: a successful delegate's result is returned unchanged, and
`force_flush 3000` returns the delegate's own answer. -/
theorem claim_C5_witness :
    (trackingExport (S := Unit) (E := String)
      ⟨fun _ => Except.ok SpanExportResult.success, (), fun _ => true⟩ []
      (TrackingState.init String)).2 = Except.ok SpanExportResult.success ∧
    trackingForceFlush (S := Unit) (E := String)
      ⟨fun _ => Except.ok SpanExportResult.success, (), fun _ => true⟩ 3000
      = true := by
  refine ⟨(claim_C5_transparent
      ⟨fun _ => Except.ok SpanExportResult.success, (), fun _ => true⟩ []
      (TrackingState.init String) SpanExportResult.success rfl).1,
    (claim_C5_transparent
      ⟨fun _ => Except.ok SpanExportResult.success, (), fun _ => true⟩ []
      (TrackingState.init String) SpanExportResult.success rfl).2.2 3000⟩

/-- C6, counterexample: with the explicit traces endpoint unset and the
generic endpoint `http://collector:4318/v1/traces`, the code returns the
value unchanged, whereas the claim prescribes appending `/v1/traces`
unconditionally (which would yield a different string). -/
theorem claim_C6_counterexample :
    get_otlp_endpoint
      ⟨none, some "http://collector:4318/v1/traces", none, none⟩
      = "http://collector:4318/v1/traces" ∧
    ("http://collector:4318/v1/traces" : String) ≠
      pyRstripSlash (pyStrip "http://collector:4318/v1/traces")
        ++ "/v1/traces" := by
  decide

/-- C6, amended: endpoint resolution uses the whitespace-trimmed explicit
traces endpoint when non-empty; otherwise the generic endpoint (trimmed,
trailing slashes removed) with `/v1/traces` appended UNLESS it already ends
with `v1/traces`; otherwise the hardcoded local default — i.e. the code
agrees with `specResolveEndpoint`, the spec-side rendering of that rule. -/
theorem claim_C6_endpoint_resolution (env : OtlpEnv) :
    get_otlp_endpoint env = specResolveEndpoint env := rfl

/-- C7: compression never alters span content — with `none` the wire bytes
are the serialized encoding unchanged, and whenever the library compressors
satisfy their round-trip contract, decompressing the gzip (resp. deflate)
wire bytes yields the serialized encoding byte-for-byte. -/
theorem claim_C7_compression (gz zl gzD zlD : List Nat → List Nat)
    (serialized : List Nat)
    (hgz : ∀ b, gzD (gz b) = b) (hzl : ∀ b, zlD (zl b) = b) :
    exportPayload gz zl Compression.noCompression serialized = serialized ∧
    gzD (exportPayload gz zl Compression.gzipC serialized) = serialized ∧
    zlD (exportPayload gz zl Compression.deflateC serialized) = serialized := by
  refine ⟨rfl, ?_, ?_⟩
  · simpa [exportPayload] using hgz serialized
  · simpa [exportPayload] using hzl serialized

/-- C7, witness: instantiating the compressors with the identity (which
round-trips) on a concrete payload. -/
theorem claim_C7_witness :
    exportPayload id id Compression.noCompression [0, 1, 2] = [0, 1, 2] ∧
    id (exportPayload id id Compression.gzipC [0, 1, 2]) = [0, 1, 2] ∧
    id (exportPayload id id Compression.deflateC [0, 1, 2]) = [0, 1, 2] :=
  claim_C7_compression id id id id [0, 1, 2] (fun _ => rfl) (fun _ => rfl)

/-- C8, counterexample: an exporter constructed with no relaxed-mode
selection of any kind (the constructor surface has no transport-security
field at all) still sends its post with `verify=False` — strict validation
is not the default, refuting the claim. -/
theorem claim_C8_counterexample :
    ¬ ((buildPostArgs ⟨"https://api.example.com", none⟩ none [0, 1, 2] 10).verify
      = true) := by
  decide

/-- C8, amended: the no-SSL exporter disables certificate validation on
EVERY request it sends, for every configuration: relaxed transport security
is selected by constructing `OTLPSpanExporterNoSSL` at all (the class name
marks it), not by a configuration value, and no strict mode exists in its
configuration surface. -/
theorem claim_C8_verify_always_false (cfg : NoSSLExporterConfig)
    (client_cert : Option String) (data : List Nat) (timeout_sec : Nat) :
    (buildPostArgs cfg client_cert data timeout_sec).verify = false := rfl

/-- A comma-separated `key=value` splitter standing in for the library's
`parse_env_headers` in witnesses; only its value on non-empty strings is
relied upon. -/
def parseKV : String → List (String × String) :=
  fun s => if s = "" then [] else [(s, s)]

/-- C9: the exporter's header mapping is empty when neither header variable
is set or both are empty; when the traces-specific variable is set its value
is the parsed string (the generic one is ignored — precedence); otherwise a
non-empty generic value is the parsed string.  The parser is abstract,
constrained only to map the empty string to the empty mapping (as parsing
zero comma-separated `key=value` pairs must). -/
theorem claim_C9_headers (parse : String → List (String × String))
    (env : OtlpEnv) (hparse : parse "" = []) :
    ((env.traces_headers.getD "" = "" ∧ env.headers.getD "" = "") →
      get_otlp_headers parse env = []) ∧
    (∀ t, env.traces_headers = some t → get_otlp_headers parse env = parse t) ∧
    (∀ g, env.traces_headers = none → env.headers = some g → g ≠ "" →
      get_otlp_headers parse env = parse g) := by
  refine ⟨?_, ?_, ?_⟩
  · rintro ⟨h1, h2⟩
    cases htr : env.traces_headers with
    | some t =>
      have ht : t = "" := by simpa [htr] using h1
      simp [get_otlp_headers, headersString, htr, ht]
    | none =>
      simp [get_otlp_headers, headersString, htr, h2]
  · intro t ht
    by_cases h : t = ""
    · subst h
      simp [get_otlp_headers, headersString, ht, hparse]
    · simp [get_otlp_headers, headersString, ht, h]
  · intro g h1 h2 h3
    simp [get_otlp_headers, headersString, h1, h2, h3]

/-- C9, witness: with both header variables set, the traces-specific one is
parsed; with only an empty generic value, the mapping is empty. -/
theorem claim_C9_witness :
    get_otlp_headers parseKV ⟨none, none, some "a=b", some "c=d"⟩
      = parseKV "a=b" ∧
    get_otlp_headers parseKV ⟨none, none, none, some ""⟩ = [] := by
  refine ⟨(claim_C9_headers parseKV
      ⟨none, none, some "a=b", some "c=d"⟩ (by decide)).2.1 "a=b" rfl,
    (claim_C9_headers parseKV
      ⟨none, none, none, some ""⟩ (by decide)).1 (by decide)⟩

/-- C10: invariant of the tracking wrapper's export — it first resets
`last_error`, so the post-state's `last_error` is `some e` exactly when this
call's inner export raised `e` (and is independent of the prior state), and
whenever `last_error` is non-`None` the recorded `last_result` is
`FAILURE`. -/
theorem claim_C10_invariant {S E : Type} (delegate : InnerExporter S E)
    (spans : List S) (st : TrackingState E) :
    (∀ e, (trackingExport delegate spans st).1.last_error = some e ↔
      delegate.exportFn spans = Except.error e) ∧
    ((trackingExport delegate spans st).1.last_error ≠ none →
      (trackingExport delegate spans st).1.last_result
        = some SpanExportResult.failure) ∧
    (trackingExport delegate spans st).1.last_error =
      (trackingExport delegate spans (TrackingState.init E)).1.last_error := by
  cases h : delegate.exportFn spans with
  | ok r =>
    refine ⟨fun e => ?_, ?_, ?_⟩ <;>
      simp [trackingExport, h, TrackingState.init]
  | error e =>
    refine ⟨fun e' => ?_, ?_, ?_⟩ <;>
      simp [trackingExport, h, TrackingState.init, eq_comm]

/-- C10, witness: starting from a stale state, a delegate raising `"boom"`
leaves `last_error = some "boom"` and `last_result = FAILURE`. -/
theorem claim_C10_witness :
    (trackingExport (S := Unit) (E := String)
      ⟨fun _ => Except.error "boom", (), fun _ => true⟩ []
      ⟨some SpanExportResult.success, some "old"⟩).1.last_error
      = some "boom" ∧
    (trackingExport (S := Unit) (E := String)
      ⟨fun _ => Except.error "boom", (), fun _ => true⟩ []
      ⟨some SpanExportResult.success, some "old"⟩).1.last_result
      = some SpanExportResult.failure := by
  have h := claim_C10_invariant (S := Unit) (E := String)
    ⟨fun _ => Except.error "boom", (), fun _ => true⟩ []
    ⟨some SpanExportResult.success, some "old"⟩
  refine ⟨(h.1 "boom").mpr rfl, h.2.1 ?_⟩
  rw [(h.1 "boom").mpr rfl]
  simp

end OtelExport
